import Mathlib

/-!
Verification of the Telegram-courier ingestion/deduplication/routing pipeline.

The definitions below are a shallow embedding of `src/services/telegramListener.ts`
(`TelegramListener`) and `src/services/webhookForwarder.ts` (`WebhookForwarder`).

Modelling conventions:
* The JS `Set<string>` used for dedup is modelled as a `List String` in insertion
  order (a JS `Set` iterates in insertion order and holds no duplicates).
* Loosely-typed Telegram API objects are modelled as closed tagged variants
  (`Peer`, `Media`), deciding the dynamic `"field" in obj` probes once.
* JS string truthiness (`if (s)`) is `!s.isEmpty` on `String`, and `truthyO`
  on `Option String` (absent or empty is falsy).
* External network calls are passed in as parameters describing their outcome:
  `getEntity` and `event.getChat()` results are `Option Entity` / `Option ChatInfo`
  (`none` = the call threw or returned a falsy value, which the source catches),
  a media download is `Option Nat` (`none` = threw or returned a non-Buffer,
  `some b` = returned buffer `b`), a webhook POST outcome is a `Bool`.
-/

/-- Closed variant for `Api.TypePeer` (`message.peerId`): the source probes
`"channelId" in peerId`, `"chatId" in peerId`, `"userId" in peerId` in turn.
`other` stands for an object of none of these shapes (the source's trailing
`"unknown"` fallback). -/
inductive Peer
  | channel (channelId : Int)
  | chat (chatId : Int)
  | user (userId : Int)
  | other
deriving DecidableEq

/-- Closed variant for `Api.TypeMessageMedia`. For a photo, `hasPhoto` is the
truthiness of `media.photo`; for a document, `hasDocument` is the truthiness of
`media.document`, `size` models `'size' in doc ? Number(doc.size) : 0`,
`mimeType` models `doc.mimeType` (absent = `none`), and `fileNameAttr` is the
first `DocumentAttributeFilename` among `doc.attributes`, if any. -/
inductive Media
  | photo (hasPhoto : Bool)
  | document (hasDocument : Bool) (size : Option Int) (mimeType : Option String)
      (fileNameAttr : Option String)
  | otherMedia
deriving DecidableEq

/-- An `Api.Message` as the two listener handlers consume it: `peerId` may be
absent (`message.peerId` falsy), `text` models `message.message` (possibly
undefined), `date` models `message.date` (possibly undefined). -/
structure RawMessage where
  peerId : Option Peer
  id : Int
  text : Option String
  date : Option Int
  media : Option Media
deriving DecidableEq

/-- Result of `client.getEntity(peerId)`: the source reads
`"username" in entity ? entity.username : undefined` and likewise `title`. -/
structure Entity where
  username : Option String
  title : Option String
deriving DecidableEq

/-- Result of `event.getChat()`: the source reads `username`, `title` and
`"id" in chat ? String(chat.id) : undefined`. -/
structure ChatInfo where
  username : Option String
  title : Option String
  id : Option Int
deriving DecidableEq

/-- The `TelegramMessage` interface handed to the message handler
(and hence to `WebhookForwarder.forward`). -/
structure TelegramMessage where
  id : Int
  text : String
  chatUsername : Option String
  chatTitle : Option String
  chatId : Option String
  date : Int
  media : Option Media
  rawMessage : RawMessage
deriving DecidableEq

/-- JS truthiness of a possibly-absent string (`undefined` and `""` are falsy). -/
def truthyO : Option String → Bool
  | none => false
  | some s => !s.isEmpty

/-- `MAX_CACHE_SIZE` in `TelegramListener`. -/
def MAX_CACHE_SIZE : Nat := 1000

/-- The cache-trimming loop of `TelegramListener`: pull `MAX_CACHE_SIZE / 2`
values off the set's insertion-order iterator and delete each truthy one
(`if (oldKey) this.processedMessages.delete(oldKey)`). Deleting an
already-yielded value does not disturb a JS `Set` iterator, so the values
considered are the first `MAX_CACHE_SIZE / 2` entries in insertion order. -/
def evictLoop (s : List String) : List String :=
  ((s.take (MAX_CACHE_SIZE / 2)).filter (fun k => !k.isEmpty)).foldl List.erase s

/-- `this.processedMessages.add(messageKey)` followed by the
`size > MAX_CACHE_SIZE` check and the trimming loop. -/
def dedupInsert (st : List String) (key : String) : List String :=
  let st1 := st ++ [key]
  if MAX_CACHE_SIZE < st1.length then evictLoop st1 else st1

/-- The dedup-cache step both handlers inline (spec contract `shouldProcess`):
`has` check, then `add` plus size-pressure trimming. Returns whether the key
was fresh, along with the updated cache. -/
def shouldProcess (st : List String) (key : String) : Bool × List String :=
  if key ∈ st then (false, st) else (true, dedupInsert st key)

/-- `chatIdForDedup` as computed in both handlers: probe `channelId`, then
`chatId`, then `userId`, else the literal `"unknown"`. -/
def chatIdForDedup : Peer → String
  | Peer.channel i => toString i
  | Peer.chat i => toString i
  | Peer.user i => toString i
  | Peer.other => "unknown"

/-- `messageKey` = `` `${chatIdForDedup}:${message.id}` ``. -/
def dedupKey (p : Peer) (msgId : Int) : String :=
  chatIdForDedup p ++ ":" ++ toString msgId

/-- Folding the dedup step over a sequence of keys, starting from the empty
cache a fresh process starts with. -/
def processKeys (keys : List String) : List String :=
  keys.foldl (fun st k => (shouldProcess st k).2) []

section DedupLemmas

/-- Erasing each element of a list's own front segment, in order, leaves
exactly the rest of the list. -/
theorem foldl_erase_front (a b : List String) :
    a.foldl List.erase (a ++ b) = b := by
  induction a with
  | nil => rfl
  | cons x xs ih =>
    simp only [List.foldl_cons, List.cons_append, List.erase_cons_head]
    exact ih

/-- If every value erased differs from `k`, membership of `k` survives the
erasures. -/
theorem mem_foldl_erase (ws : List String) (l : List String) (k : String)
    (hk : k ∈ l) (hw : ∀ v ∈ ws, v ≠ k) : k ∈ ws.foldl List.erase l := by
  induction ws generalizing l with
  | nil => exact hk
  | cons w ws ih =>
    simp only [List.foldl_cons]
    refine ih (l.erase w) ?_ (fun v hv => hw v (List.mem_cons_of_mem _ hv))
    have hne : k ≠ w := fun h => hw w (List.mem_cons_self w ws) h.symm
    exact (List.mem_erase_of_ne hne).mpr hk

/-- When the first `MAX_CACHE_SIZE / 2` entries are all non-empty (every key the
listener ever inserts contains a `:`), the trimming loop removes exactly the
oldest `MAX_CACHE_SIZE / 2` entries in insertion order. -/
theorem evictLoop_eq_drop (s : List String)
    (h : ∀ k ∈ s.take (MAX_CACHE_SIZE / 2), ¬k.isEmpty) :
    evictLoop s = s.drop (MAX_CACHE_SIZE / 2) := by
  unfold evictLoop
  have hf : (s.take (MAX_CACHE_SIZE / 2)).filter (fun k => !k.isEmpty)
      = s.take (MAX_CACHE_SIZE / 2) := by
    refine List.filter_eq_self.mpr ?_
    intro a ha
    simpa using h a ha
  rw [hf]
  have hsplit := foldl_erase_front (s.take (MAX_CACHE_SIZE / 2)) (s.drop (MAX_CACHE_SIZE / 2))
  rw [List.take_append_drop] at hsplit
  exact hsplit

/-- The key just inserted is never removed by the trimming loop that its own
insertion triggers. -/
theorem mem_dedupInsert (st : List String) (key : String) (hnew : key ∉ st) :
    key ∈ dedupInsert st key := by
  unfold dedupInsert
  by_cases hlen : MAX_CACHE_SIZE < (st ++ [key]).length
  · simp only [hlen, if_true]
    unfold evictLoop
    refine mem_foldl_erase _ _ _ (by simp) ?_
    intro v hv
    have hvst : v ∈ st := by
      have h500 : MAX_CACHE_SIZE / 2 ≤ st.length := by
        simp only [List.length_append, List.length_singleton] at hlen
        unfold MAX_CACHE_SIZE at hlen ⊢
        omega
      have : (st ++ [key]).take (MAX_CACHE_SIZE / 2) = st.take (MAX_CACHE_SIZE / 2) :=
        List.take_append_of_le_length h500
      rw [this] at hv
      exact List.take_subset _ _ (List.mem_of_mem_filter hv)
    exact fun h => hnew (h ▸ hvst)
  · simp only [hlen, if_false]
    simp

/-- A key already present short-circuits the dedup step with no state change. -/
theorem shouldProcess_mem (st : List String) (key : String) (h : key ∈ st) :
    shouldProcess st key = (false, st) := by
  simp [shouldProcess, h]

/-- A fresh key is accepted and is a member of the updated cache. -/
theorem shouldProcess_fresh (st : List String) (key : String) (h : key ∉ st) :
    shouldProcess st key = (true, dedupInsert st key) := by
  simp [shouldProcess, h]

/-- The cache after any dedup step: a suffix invariant for runs of distinct,
non-empty keys starting from the empty cache. After processing `keys`, the
cache is exactly `keys.drop j` for some cut point `j` that is `0` until the
first eviction and at least `MAX_CACHE_SIZE / 2` afterwards, and the cache
never holds more than `MAX_CACHE_SIZE` entries. -/
theorem processKeys_drop (keys : List String) (hnd : keys.Nodup)
    (hne : ∀ k ∈ keys, ¬k.isEmpty) :
    ∃ j, j ≤ keys.length ∧ processKeys keys = keys.drop j ∧
      keys.length - j ≤ MAX_CACHE_SIZE ∧
      (j = 0 ∨ MAX_CACHE_SIZE / 2 ≤ j) := by
  induction keys using List.reverseRecOn with
  | nil => exact ⟨0, by simp [processKeys], by simp [processKeys, MAX_CACHE_SIZE]⟩
  | append_singleton l k ih =>
    have hlnd : l.Nodup := hnd.of_append_left
    have hkl : k ∉ l := by
      rcases List.nodup_append.mp hnd with ⟨-, -, hdisj⟩
      exact fun hk => hdisj hk (List.mem_singleton_self k)
    have hlne : ∀ x ∈ l, ¬x.isEmpty := fun x hx => hne x (List.mem_append_left _ hx)
    obtain ⟨j, hj, hpk, hlen, hcut⟩ := ih hlnd hlne
    have hstep : processKeys (l ++ [k]) = (shouldProcess (processKeys l) k).2 := by
      simp [processKeys, List.foldl_append]
    have hkdrop : k ∉ l.drop j := fun hk => hkl (List.drop_subset j l hk)
    rw [hpk] at hstep
    rw [shouldProcess_fresh _ _ hkdrop] at hstep
    have happ : l.drop j ++ [k] = (l ++ [k]).drop j := by
      rw [List.drop_append_of_le_length hj]
    have hlendrop : (l.drop j).length = l.length - j := List.length_drop j l
    by_cases hcap : MAX_CACHE_SIZE < (l.drop j ++ [k]).length
    · -- eviction fires: the combined list has exactly MAX_CACHE_SIZE + 1 entries
      have hexact : l.length - j = MAX_CACHE_SIZE := by
        simp only [List.length_append, List.length_singleton, hlendrop] at hcap
        omega
      have hnonempty : ∀ x ∈ (l.drop j ++ [k]).take (MAX_CACHE_SIZE / 2), ¬x.isEmpty := by
        intro x hx
        have hxmem : x ∈ l ++ [k] := by
          have := List.take_subset (MAX_CACHE_SIZE / 2) (l.drop j ++ [k]) hx
          rw [happ] at this
          exact List.drop_subset _ _ this
        exact hne x hxmem
      refine ⟨j + MAX_CACHE_SIZE / 2, ?_, ?_, ?_, ?_⟩
      · have : MAX_CACHE_SIZE / 2 ≤ MAX_CACHE_SIZE := Nat.div_le_self _ _
        simp only [List.length_append, List.length_singleton]
        omega
      · rw [hstep]
        simp only [dedupInsert, hcap, if_true]
        rw [evictLoop_eq_drop _ hnonempty, happ, List.drop_drop]
      · simp only [List.length_append, List.length_singleton]
        unfold MAX_CACHE_SIZE at hexact ⊢
        omega
      · right
        omega
    · refine ⟨j, ?_, ?_, ?_, hcut⟩
      · simp only [List.length_append, List.length_singleton]; omega
      · rw [hstep]
        simp only [dedupInsert, hcap, if_false]
        exact happ
      · have h2 : (l.drop j ++ [k]).length = (l.length - j) + 1 := by
          simp [hlendrop]
        rw [h2] at hcap
        simp only [List.length_append, List.length_singleton]
        omega

end DedupLemmas

/-- JS default stringification of an object with no custom `toString`
(`String(obj)` on a bare Telegram TL object). -/
def peerStringified : Peer → String := fun _ => "[object Object]"

/-- Tier-2 id extraction in `handleNewMessage`:
`String("channelId" in peerId ? peerId.channelId : "userId" in peerId ? peerId.userId : peerId)`.
Note the source consults no chat-scoped id here: a `PeerChat` falls through to
stringifying the raw peer object. -/
def tier2ChatId : Peer → String
  | Peer.channel i => toString i
  | Peer.user i => toString i
  | p => peerStringified p

/-- `TelegramListener.handleRawChannelMessage`, shared by the raw push handler
and the polling loop (`isPolling` only alters logging). `ready` models
`this.client && this.messageHandler` being set; `ent` is the outcome of
`client.getEntity(peerId)`; `now` is the acquisition-time epoch-seconds fallback
for a missing `message.date`. Returns the updated dedup cache and the
`TelegramMessage` passed to the message handler, if any. -/
def handleRaw (ready : Bool) (st : List String) (ent : Option Entity)
    (m : RawMessage) (isPolling : Bool) (now : Int) :
    List String × Option TelegramMessage :=
  if !ready then (st, none) else
  match m.peerId with
  | none => (st, none)
  | some p =>
    let key := dedupKey p m.id
    if key ∈ st then (st, none)
    else
      let st2 := dedupInsert st key
      let u := match ent with
        | some e => e.username
        | none => none
      let t := match ent with
        | some e => e.title
        | none => none
      (st2, some {
        id := m.id
        text := m.text.getD ""
        chatUsername := u
        chatTitle := t
        chatId := some (chatIdForDedup p)
        date := m.date.getD now
        media := m.media
        rawMessage := m })

/-- The tiered identity resolution inside `handleNewMessage`: read
`username`/`title`/`id` off the `event.getChat()` result; when all three are
falsy, extract an id from the peer (`tier2ChatId`) and merge the
`client.getEntity(peerId)` fields (a failed lookup, `ent = none`, keeps the
falsy tier-1 username/title). Yields `(chatUsername, chatTitle, chatId)`. -/
def resolveNew (chat : Option ChatInfo) (ent : Option Entity) (p : Peer) :
    Option String × Option String × Option String :=
  let u1 : Option String := chat.bind ChatInfo.username
  let t1 : Option String := chat.bind ChatInfo.title
  let i1 : Option String := (chat.bind ChatInfo.id).map toString
  if !truthyO u1 && !truthyO t1 && !truthyO i1 then
    match ent with
    | some e => (e.username, e.title, some (tier2ChatId p))
    | none => (u1, t1, some (tier2ChatId p))
  else (u1, t1, i1)

/-- `TelegramListener.handleNewMessage` (the `NewMessage` event path).
`chat` is the outcome of `event.getChat()` and `ent` that of
`client.getEntity(peerId)` in tier 2. A missing `peerId` makes the
`"channelId" in peerId` probe throw a `TypeError`, swallowed by the handler's
outer catch before any state change. -/
def handleNew (ready : Bool) (st : List String) (chat : Option ChatInfo)
    (ent : Option Entity) (m : RawMessage) (now : Int) :
    List String × Option TelegramMessage :=
  if !ready then (st, none) else
  match m.peerId with
  | none => (st, none)
  | some p =>
    let key := dedupKey p m.id
    if key ∈ st then (st, none)
    else
      let st2 := dedupInsert st key
      let uti := resolveNew chat ent p
      if !truthyO uti.1 && !truthyO uti.2.1 && !truthyO uti.2.2 then (st2, none)
      else
        (st2, some {
          id := m.id
          text := m.text.getD ""
          chatUsername := uti.1
          chatTitle := uti.2.1
          chatId := uti.2.2
          date := m.date.getD now
          media := m.media
          rawMessage := m })

/-- A `(telegramChannel, webhookUrl)` route mapping from configuration. -/
structure ChannelMapping where
  telegramChannel : String
  webhookUrl : String
deriving DecidableEq

/-- `target.replace(/^@/, '')`: strip at most one leading `@`
(a JS string is its character sequence; the regex drops the first character
exactly when it is `@`). -/
def stripLeadingAt (s : String) : String :=
  match s.data with
  | '@' :: rest => String.mk rest
  | _ => s

/-- JS `String.prototype.toLowerCase`, character-wise simple lower-casing. -/
def jsToLower (s : String) : String :=
  String.mk (s.data.map Char.toLower)

/-- JS `String.prototype.startsWith`. -/
def jsStartsWith (s pre : String) : Bool :=
  pre.data.isPrefixOf s.data

/-- JS `String.prototype.includes` for a single character. -/
def jsIncludesChar (s : String) (c : Char) : Bool :=
  s.data.contains c

/-- `WebhookForwarder.matchesChannel`. -/
def matchesChannel (m : TelegramMessage) (target : String) : Bool :=
  let normalizedTarget := jsToLower (stripLeadingAt target)
  (match m.chatUsername with
   | some u => !u.isEmpty && (jsToLower (stripLeadingAt u) == normalizedTarget || u == target)
   | none => false)
  ||
  (match m.chatTitle with
   | some t => !t.isEmpty && (jsToLower t == normalizedTarget || t == target)
   | none => false)
  ||
  (match m.chatId with
   | some c => !c.isEmpty && c == target
   | none => false)

/-- `WebhookForwarder.findWebhookUrl`: first matching mapping in
configuration order wins. -/
def findWebhookUrl (mappings : List ChannelMapping) (m : TelegramMessage) :
    Option String :=
  (mappings.find? (fun mp => matchesChannel m mp.telegramChannel)).map
    ChannelMapping.webhookUrl

/-- JS `a || b` on a possibly-absent string: keep `a` when truthy, else `b`. -/
def orElseTruthy (a : Option String) (b : String) : String :=
  match a with
  | some s => if s.isEmpty then b else s
  | none => b

/-- `message.chatTitle || message.chatUsername || message.chatId || 'Unknown'`. -/
def sourceName (m : TelegramMessage) : String :=
  orElseTruthy m.chatTitle (orElseTruthy m.chatUsername (orElseTruthy m.chatId "Unknown"))

/-- `message.text.length > 4000 ? message.text.substring(0, 3997) + '...' : message.text`. -/
def truncateText (t : String) : String :=
  if 4000 < t.length then String.mk (t.data.take 3997) ++ "..." else t

/-- The embed object `sendToWebhook` builds. `timestampMs` carries the
argument of `new Date(message.date * 1000)`; the ISO-8601 rendering of that
instant is not modelled further. -/
structure Embed where
  title : String
  description : Option String
  color : Nat
  timestampMs : Int
  footerText : String
deriving DecidableEq

/-- `sendToWebhook`'s embed: title from the display name, optional truncated
description (only when `message.text` is truthy), fixed color and footer. -/
def buildEmbed (m : TelegramMessage) (srcName : String) : Embed :=
  { title := "📨 " ++ srcName
    description := if m.text.isEmpty then none else some (truncateText m.text)
    color := 0x0099ff
    timestampMs := m.date * 1000
    footerText := "Telegram에서 전달됨" }

/-- One file part of a multi-part delivery: the downloaded buffer (abstracted
to an identifier), the inferred filename and content type. -/
structure FileEntry where
  buffer : Nat
  name : String
  contentType : String
deriving DecidableEq

/-- `WebhookForwarder.downloadMedia`. `clientPresent` models the
`this.telegramClient()` null check; `dl` is the outcome of
`client.downloadMedia` (`none` = threw, returned null, or returned a
non-Buffer — the catch swallows the error and the collected list, still empty,
is returned). -/
def downloadMedia (m : TelegramMessage) (clientPresent : Bool) (dl : Option Nat) :
    List FileEntry :=
  match m.media with
  | none => []
  | some media =>
    if !clientPresent then []
    else
      match media with
      | Media.photo hasPhoto =>
        if hasPhoto then
          match dl with
          | some b => [⟨b, "photo_" ++ toString m.id ++ ".jpg", "image/jpeg"⟩]
          | none => []
        else []
      | Media.document hasDoc size mime fnameAttr =>
        if hasDoc then
          let fileSize := size.getD 0
          if 8 * 1024 * 1024 < fileSize then []
          else
            match dl with
            | some b =>
              let fileName0 := fnameAttr.getD ("file_" ++ toString m.id)
              match mime with
              | some mt =>
                if !mt.isEmpty then
                  let fn :=
                    if jsIncludesChar fileName0 '.' then fileName0
                    else if jsStartsWith mt "video/" then fileName0 ++ ".mp4"
                    else if mt == "image/gif" then fileName0 ++ ".gif"
                    else if jsStartsWith mt "image/" then fileName0 ++ ".jpg"
                    else fileName0
                  [⟨b, fn, mt⟩]
                else [⟨b, fileName0, "application/octet-stream"⟩]
              | none => [⟨b, fileName0, "application/octet-stream"⟩]
            | none => []
        else []
      | Media.otherMedia => []

/-- The outbound HTTP POST body shape: plain JSON, or multi-part with a
`payload_json` field plus one file field per attachment. -/
inductive OutRequest
  | json (embeds : List Embed)
  | multipart (embeds : List Embed) (files : List FileEntry)
deriving DecidableEq

/-- `WebhookForwarder.sendToWebhook` up to the outgoing request it constructs:
media present means multi-part, otherwise plain JSON with the embed alone. -/
def sendToWebhook (m : TelegramMessage) (srcName : String) (clientPresent : Bool)
    (dl : Option Nat) : OutRequest :=
  let embed := buildEmbed m srcName
  let files := downloadMedia m clientPresent dl
  if 0 < files.length then OutRequest.multipart [embed] files
  else OutRequest.json [embed]

/-- What `WebhookForwarder.forward` reduces to at its boundary: the unmatched
message is dropped, a successful POST delivers the request, and a POST failure
(network error or non-2xx, modelled by `postOk = false`) is caught and logged,
yielding a normal return. -/
inductive ForwardOutcome
  | noMapping
  | success (url : String) (req : OutRequest)
  | failureLogged (url : String)
deriving DecidableEq

/-- The `axios.post` boundary inside `sendToWebhook`: a failed delivery throws. -/
def attemptSend (m : TelegramMessage) (srcName : String) (clientPresent : Bool)
    (dl : Option Nat) (postOk : Bool) : Except Unit OutRequest :=
  if postOk then Except.ok (sendToWebhook m srcName clientPresent dl)
  else Except.error ()

/-- `WebhookForwarder.forward`: route lookup, then the guarded send whose
failure is caught (`console.error`) rather than rethrown. -/
def forward (mappings : List ChannelMapping) (m : TelegramMessage)
    (clientPresent : Bool) (dl : Option Nat) (postOk : Bool) : ForwardOutcome :=
  match findWebhookUrl mappings m with
  | none => ForwardOutcome.noMapping
  | some url =>
    match attemptSend m (sourceName m) clientPresent dl postOk with
    | Except.ok req => ForwardOutcome.success url req
    | Except.error _ => ForwardOutcome.failureLogged url

/-- The composed pipeline step on the raw/poll path, as wired in the entry
point: `listener.onMessage(msg => forwarder.forward(msg))`. -/
def pipelineRaw (mappings : List ChannelMapping) (st : List String)
    (ent : Option Entity) (m : RawMessage) (isPolling : Bool) (now : Int)
    (clientPresent : Bool) (dl : Option Nat) (postOk : Bool) :
    List String × Option ForwardOutcome :=
  match handleRaw true st ent m isPolling now with
  | (st2, none) => (st2, none)
  | (st2, some msg) => (st2, some (forward mappings msg clientPresent dl postOk))

section StringFacts

/-- `Nat.toDigitsCore` never shortens its accumulator. -/
theorem toDigitsCore_length_le (b : Nat) :
    ∀ (fuel n : Nat) (ds : List Char),
      ds.length ≤ (Nat.toDigitsCore b fuel n ds).length := by
  intro fuel
  induction fuel with
  | zero => intro n ds; simp [Nat.toDigitsCore]
  | succ f ih =>
    intro n ds
    simp only [Nat.toDigitsCore]
    split
    · simp
    · calc ds.length ≤ (Nat.digitChar (n % b) :: ds).length := by simp
        _ ≤ _ := ih _ _

/-- The decimal digit list of a natural number is never empty. -/
theorem toDigits_ne_nil (n : Nat) : Nat.toDigits 10 n ≠ [] := by
  have h : 1 ≤ (Nat.toDigits 10 n).length := by
    simp only [Nat.toDigits, Nat.toDigitsCore]
    split
    · simp
    · calc 1 ≤ ([Nat.digitChar (n % 10)] : List Char).length := by simp
        _ ≤ _ := toDigitsCore_length_le 10 n (n / 10) [Nat.digitChar (n % 10)]
  intro h0
  rw [h0] at h
  simp at h

/-- `Nat.repr` never yields the empty string. -/
theorem natRepr_ne_empty (n : Nat) : Nat.repr n ≠ "" := by
  intro h
  apply toDigits_ne_nil n
  have h2 : (Nat.toDigits 10 n).asString = ([] : List Char).asString := by
    rw [String.asString_nil]
    exact h
  exact List.asString_inj.mp h2

/-- `String(int)` (JS) / `toString` on `Int` never yields the empty string. -/
theorem toString_int_ne_empty (i : Int) : toString i ≠ "" := by
  cases i with
  | ofNat m =>
    show Nat.repr m ≠ ""
    exact natRepr_ne_empty m
  | negSucc m =>
    intro h
    have h2 : ("-" ++ toString (m + 1) : String).data = ("" : String).data :=
      congrArg String.data h
    simp [String.data_append] at h2

/-- Every dedup-relevant channel id string is non-empty ("unknown" included). -/
theorem chatIdForDedup_isEmpty_false (p : Peer) :
    (chatIdForDedup p).isEmpty = false := by
  have hne : chatIdForDedup p ≠ "" := by
    cases p <;> simp only [chatIdForDedup] <;>
      first
        | exact toString_int_ne_empty _
        | decide
  exact Bool.eq_false_iff.mpr (fun h => hne ((String.isEmpty_iff _).mp h))

/-- Every dedup key contains at least a colon, so it is non-empty. -/
theorem dedupKey_isEmpty_false (p : Peer) (msgId : Int) :
    (dedupKey p msgId).isEmpty = false := by
  refine Bool.eq_false_iff.mpr (fun h => ?_)
  have h2 := (String.isEmpty_iff _).mp h
  have h3 : (dedupKey p msgId).data = ("" : String).data := congrArg String.data h2
  have h4 : (":" : String).data = [':'] := rfl
  simp [dedupKey, String.data_append, h4] at h3

/-- Tier-2 id extraction never yields the empty string. -/
theorem tier2ChatId_isEmpty_false (p : Peer) :
    (tier2ChatId p).isEmpty = false := by
  have hne : tier2ChatId p ≠ "" := by
    cases p <;> simp only [tier2ChatId, peerStringified] <;>
      first
        | exact toString_int_ne_empty _
        | decide
  exact Bool.eq_false_iff.mpr (fun h => hne ((String.isEmpty_iff _).mp h))

end StringFacts

section HandlerLemmas

/-- The message record `handleRawChannelMessage` hands to the message handler. -/
def rawDispatched (ent : Option Entity) (m : RawMessage) (p : Peer) (now : Int) :
    TelegramMessage :=
  { id := m.id
    text := m.text.getD ""
    chatUsername := match ent with | some e => e.username | none => none
    chatTitle := match ent with | some e => e.title | none => none
    chatId := some (chatIdForDedup p)
    date := m.date.getD now
    media := m.media
    rawMessage := m }

/-- An unseen key on the raw/poll path: the key is recorded and the message is
dispatched. -/
theorem handleRaw_fresh (st : List String) (ent : Option Entity) (m : RawMessage)
    (p : Peer) (isP : Bool) (now : Int) (hp : m.peerId = some p)
    (hnew : dedupKey p m.id ∉ st) :
    handleRaw true st ent m isP now
      = (dedupInsert st (dedupKey p m.id), some (rawDispatched ent m p now)) := by
  simp [handleRaw, hp, hnew, rawDispatched]

/-- A seen key on the raw/poll path: silent return, no state change. -/
theorem handleRaw_seen (st : List String) (ent : Option Entity) (m : RawMessage)
    (p : Peer) (isP : Bool) (now : Int) (hp : m.peerId = some p)
    (hseen : dedupKey p m.id ∈ st) :
    handleRaw true st ent m isP now = (st, none) := by
  simp [handleRaw, hp, hseen]

/-- A seen key on the event path: logged duplicate, no state change. -/
theorem handleNew_seen (st : List String) (chat : Option ChatInfo)
    (ent : Option Entity) (m : RawMessage) (p : Peer) (now : Int)
    (hp : m.peerId = some p) (hseen : dedupKey p m.id ∈ st) :
    handleNew true st chat ent m now = (st, none) := by
  simp [handleNew, hp, hseen]

/-- An unseen key on the event path: the key is recorded, then the message is
dispatched or dropped according to the resolved identity. -/
theorem handleNew_fresh (st : List String) (chat : Option ChatInfo)
    (ent : Option Entity) (m : RawMessage) (p : Peer) (now : Int)
    (hp : m.peerId = some p) (hnew : dedupKey p m.id ∉ st) :
    handleNew true st chat ent m now
      = (dedupInsert st (dedupKey p m.id),
         if !truthyO (resolveNew chat ent p).1
            && !truthyO (resolveNew chat ent p).2.1
            && !truthyO (resolveNew chat ent p).2.2 then none
         else some {
           id := m.id
           text := m.text.getD ""
           chatUsername := (resolveNew chat ent p).1
           chatTitle := (resolveNew chat ent p).2.1
           chatId := (resolveNew chat ent p).2.2
           date := m.date.getD now
           media := m.media
           rawMessage := m }) := by
  simp only [handleNew, hp, Bool.not_true, Bool.false_eq_true, if_false]
  rw [if_neg hnew]
  split <;> rfl

end HandlerLemmas

/-- C2: the first dedup check of an unseen key reports fresh (`true`) and marks
the key seen; an immediately repeated check of the same key reports `false` and
leaves the seen-set unchanged. -/
theorem shouldProcess_true_then_false (st : List String) (key : String)
    (h : key ∉ st) :
    (shouldProcess st key).1 = true
    ∧ key ∈ (shouldProcess st key).2
    ∧ shouldProcess (shouldProcess st key).2 key
        = (false, (shouldProcess st key).2) := by
  have h1 := shouldProcess_fresh st key h
  have h2 : key ∈ (shouldProcess st key).2 := by
    rw [h1]
    exact mem_dedupInsert st key h
  exact ⟨by rw [h1], h2, shouldProcess_mem _ _ h2⟩

/-- Witness for C2 at a concrete key and the empty cache. -/
theorem shouldProcess_true_then_false_witness :
    "42:7" ∉ ([] : List String)
    ∧ ((shouldProcess [] "42:7").1 = true
      ∧ "42:7" ∈ (shouldProcess [] "42:7").2
      ∧ shouldProcess (shouldProcess [] "42:7").2 "42:7"
          = (false, (shouldProcess [] "42:7").2)) :=
  ⟨by decide, shouldProcess_true_then_false [] "42:7" (by decide)⟩

/-- C10: an insertion never evicts the key that triggered it — right after any
dedup step for `key`, `key` is in the cache, so an immediate re-check reports
already-seen. -/
theorem inserted_key_survives_eviction (st : List String) (key : String) :
    key ∈ (shouldProcess st key).2
    ∧ (shouldProcess (shouldProcess st key).2 key).1 = false := by
  have hmem : key ∈ (shouldProcess st key).2 := by
    by_cases h : key ∈ st
    · rw [shouldProcess_mem st key h]
      exact h
    · rw [shouldProcess_fresh st key h]
      exact mem_dedupInsert st key h
  exact ⟨hmem, by rw [shouldProcess_mem _ _ hmem]⟩

/-- When an insertion overflows the capacity, the trimming removes exactly the
oldest `MAX_CACHE_SIZE / 2` entries in insertion order. -/
theorem dedupInsert_drop (st : List String) (key : String)
    (hstne : ∀ x ∈ st, x.isEmpty = false)
    (hcap : MAX_CACHE_SIZE < (st ++ [key]).length) :
    dedupInsert st key = (st ++ [key]).drop (MAX_CACHE_SIZE / 2) := by
  have h500 : MAX_CACHE_SIZE / 2 ≤ st.length := by
    simp only [List.length_append, List.length_singleton] at hcap
    have : MAX_CACHE_SIZE / 2 ≤ MAX_CACHE_SIZE := Nat.div_le_self _ _
    omega
  have hnonempty : ∀ x ∈ (st ++ [key]).take (MAX_CACHE_SIZE / 2), ¬x.isEmpty := by
    intro x hx
    rw [List.take_append_of_le_length h500] at hx
    have := hstne x (List.take_subset _ _ hx)
    simp [this]
  simp only [dedupInsert]
  rw [if_pos hcap]
  exact evictLoop_eq_drop _ hnonempty

/-- C3: the dedup cache is bounded by `MAX_CACHE_SIZE`: a dedup step from a
within-capacity cache stays within capacity; an overflowing insertion removes
exactly the oldest half in insertion order; and over any run of distinct keys
from a fresh cache, the cache stays within capacity and, once more than
`MAX_CACHE_SIZE` keys have been processed, the oldest `MAX_CACHE_SIZE / 2`
keys are absent. -/
theorem dedup_cache_bounded (keys st : List String) (key k : String)
    (hnd : keys.Nodup) (hne : ∀ x ∈ keys, x.isEmpty = false)
    (hstlen : st.length ≤ MAX_CACHE_SIZE)
    (hstne : ∀ x ∈ st, x.isEmpty = false) :
    ((shouldProcess st key).2).length ≤ MAX_CACHE_SIZE
    ∧ (key ∉ st → MAX_CACHE_SIZE < (st ++ [key]).length →
        (shouldProcess st key).2 = (st ++ [key]).drop (MAX_CACHE_SIZE / 2))
    ∧ (processKeys keys).length ≤ MAX_CACHE_SIZE
    ∧ (MAX_CACHE_SIZE < keys.length → k ∈ keys.take (MAX_CACHE_SIZE / 2) →
        k ∉ processKeys keys) := by
  have hne2 : ∀ x ∈ keys, ¬x.isEmpty := fun x hx => by simp [hne x hx]
  refine ⟨?_, ?_, ?_, ?_⟩
  · by_cases h : key ∈ st
    · rw [shouldProcess_mem st key h]
      exact hstlen
    · rw [shouldProcess_fresh st key h]
      by_cases hcap : MAX_CACHE_SIZE < (st ++ [key]).length
      · rw [dedupInsert_drop st key hstne hcap]
        simp only [List.length_drop, List.length_append, List.length_singleton]
        have : MAX_CACHE_SIZE / 2 ≤ MAX_CACHE_SIZE := Nat.div_le_self _ _
        unfold MAX_CACHE_SIZE at hstlen hcap ⊢
        omega
      · simp only [dedupInsert]
        rw [if_neg hcap]
        simp only [List.length_append, List.length_singleton] at hcap ⊢
        omega
  · intro hkey hcap
    rw [shouldProcess_fresh st key hkey]
    exact dedupInsert_drop st key hstne hcap
  · obtain ⟨j, hj, hpk, hlen, -⟩ := processKeys_drop keys hnd hne2
    rw [hpk]
    simp only [List.length_drop]
    omega
  · intro hbig hk hmem
    obtain ⟨j, hj, hpk, hlen, hcut⟩ := processKeys_drop keys hnd hne2
    have hj500 : MAX_CACHE_SIZE / 2 ≤ j := by
      rcases hcut with h0 | h
      · omega
      · exact h
    rw [hpk] at hmem
    exact List.disjoint_take_drop hnd hj500 hk hmem

/-- C1: a raw update with a given dedup key, observed once via the push/event
path and once via a poll tick (both funnel through `handleRawChannelMessage`,
and likewise a further `handleNewMessage` observation), dispatches to the
forwarder exactly once: the first acquisition records the key and dispatches;
every later acquisition of the same key returns before reaching the message
handler, with no state change. -/
theorem dual_path_single_dispatch (st : List String)
    (ent ent2 ent3 : Option Entity) (chat : Option ChatInfo) (m : RawMessage)
    (p : Peer) (isP isP2 : Bool) (now now2 now3 : Int)
    (hp : m.peerId = some p) (hnew : dedupKey p m.id ∉ st) :
    (handleRaw true st ent m isP now).2 = some (rawDispatched ent m p now)
    ∧ handleRaw true (handleRaw true st ent m isP now).1 ent2 m isP2 now2
        = ((handleRaw true st ent m isP now).1, none)
    ∧ handleNew true (handleRaw true st ent m isP now).1 chat ent3 m now3
        = ((handleRaw true st ent m isP now).1, none) := by
  have h1 := handleRaw_fresh st ent m p isP now hp hnew
  have hkey : dedupKey p m.id ∈ (handleRaw true st ent m isP now).1 := by
    rw [h1]
    exact mem_dedupInsert st _ hnew
  refine ⟨by rw [h1], ?_, ?_⟩
  · exact handleRaw_seen _ ent2 m p isP2 now2 hp hkey
  · exact handleNew_seen _ chat ent3 m p now3 hp hkey

/-- The raw update `{peer: channel 42, msgId: 7, text: "hi"}` of the
end-to-end example. -/
def rawHi : RawMessage :=
  { peerId := some (Peer.channel 42), id := 7, text := some "hi",
    date := some 100, media := none }

/-- Witness for C1: push observation then poll observation of `rawHi` on a
fresh cache dispatch exactly once. -/
theorem dual_path_single_dispatch_witness :
    (rawHi.peerId = some (Peer.channel 42)
      ∧ dedupKey (Peer.channel 42) rawHi.id ∉ ([] : List String))
    ∧ ((handleRaw true [] none rawHi false 100).2
          = some (rawDispatched none rawHi (Peer.channel 42) 100)
      ∧ handleRaw true (handleRaw true [] none rawHi false 100).1 none rawHi true 100
          = ((handleRaw true [] none rawHi false 100).1, none)
      ∧ handleNew true (handleRaw true [] none rawHi false 100).1 none none rawHi 100
          = ((handleRaw true [] none rawHi false 100).1, none)) :=
  ⟨⟨rfl, by decide⟩,
    dual_path_single_dispatch [] none none none none rawHi (Peer.channel 42)
      false true 100 100 100 rfl (by decide)⟩

/-- C4: a message that resolves to no identity never reaches the forwarder —
every message either acquisition path dispatches carries at least one truthy
identity field (username, title or id). -/
theorem unidentified_never_forwarded (st : List String) (chat : Option ChatInfo)
    (ent : Option Entity) (m : RawMessage) (isP : Bool) (now : Int)
    (msg msg2 : TelegramMessage) :
    ((handleNew true st chat ent m now).2 = some msg →
      (truthyO msg.chatUsername || truthyO msg.chatTitle || truthyO msg.chatId) = true)
    ∧ ((handleRaw true st ent m isP now).2 = some msg2 →
      (truthyO msg2.chatUsername || truthyO msg2.chatTitle || truthyO msg2.chatId) = true) := by
  constructor
  · intro hsome
    cases hpeer : m.peerId with
    | none => simp [handleNew, hpeer] at hsome
    | some p =>
      by_cases hseen : dedupKey p m.id ∈ st
      · rw [handleNew_seen st chat ent m p now hpeer hseen] at hsome
        simp at hsome
      · rw [handleNew_fresh st chat ent m p now hpeer hseen] at hsome
        have hsome2 : (if (!truthyO (resolveNew chat ent p).1
              && !truthyO (resolveNew chat ent p).2.1
              && !truthyO (resolveNew chat ent p).2.2) = true
            then (none : Option TelegramMessage)
            else some {
              id := m.id
              text := m.text.getD ""
              chatUsername := (resolveNew chat ent p).1
              chatTitle := (resolveNew chat ent p).2.1
              chatId := (resolveNew chat ent p).2.2
              date := m.date.getD now
              media := m.media
              rawMessage := m }) = some msg := hsome
        split at hsome2
        · simp at hsome2
        · rw [Option.some.injEq] at hsome2
          subst hsome2
          rename_i hguard
          cases hu : truthyO (resolveNew chat ent p).1 <;>
            cases ht : truthyO (resolveNew chat ent p).2.1 <;>
              cases hi : truthyO (resolveNew chat ent p).2.2 <;>
                simp_all
  · intro hsome
    cases hpeer : m.peerId with
    | none => simp [handleRaw, hpeer] at hsome
    | some p =>
      by_cases hseen : dedupKey p m.id ∈ st
      · rw [handleRaw_seen st ent m p isP now hpeer hseen] at hsome
        simp at hsome
      · rw [handleRaw_fresh st ent m p isP now hpeer hseen] at hsome
        have hsome2 : some (rawDispatched ent m p now) = some msg2 := hsome
        rw [Option.some.injEq] at hsome2
        subst hsome2
        simp [rawDispatched, truthyO, chatIdForDedup_isEmpty_false p]

/-- A raw update from channel 5 used by the identity-invariant witness. -/
def rawNews : RawMessage :=
  { peerId := some (Peer.channel 5), id := 1, text := some "hello",
    date := some 10, media := none }

/-- A rich `event.getChat()` result for the identity-invariant witness. -/
def chatNews : Option ChatInfo :=
  some { username := some "news", title := some "News Channel", id := some 5 }

/-- The message the event path dispatches for `rawNews` under `chatNews`. -/
def msgNews : TelegramMessage :=
  { id := 1, text := "hello", chatUsername := some "news",
    chatTitle := some "News Channel", chatId := some "5", date := 10,
    media := none, rawMessage := rawNews }

/-- Witness for C4: a concretely dispatched event-path message is identified. -/
theorem unidentified_never_forwarded_witness :
    (handleNew true [] chatNews none rawNews 0).2 = some msgNews
    ∧ (truthyO msgNews.chatUsername || truthyO msgNews.chatTitle
        || truthyO msgNews.chatId) = true :=
  ⟨by decide,
    (unidentified_never_forwarded [] chatNews none rawNews false 0 msgNews msgNews).1
      (by decide)⟩

/-- A raw update whose peer carries only a chat-scoped id. -/
def rawChatPeer : RawMessage :=
  { peerId := some (Peer.chat 5), id := 7, text := some "x", date := some 0,
    media := none }

/-- C5 counterexample: on the event path with tier 1 empty, a peer carrying
only a chat-scoped id (`chatId = 5`) resolves to the stringified raw peer
object, not to `"5"`: the tier-2 chain probes only channel- and user-scoped
ids before stringifying. -/
theorem tier2_chat_peer_counterexample :
    ((handleNew true [] none none rawChatPeer 0).2.bind TelegramMessage.chatId)
        = some "[object Object]"
    ∧ ((handleNew true [] none none rawChatPeer 0).2.bind TelegramMessage.chatId)
        ≠ some "5" :=
  ⟨by decide, by decide⟩

/-- The message the event path dispatches for `rawChatPeer` with empty tiers. -/
def msgChatPeer : TelegramMessage :=
  { id := 7, text := "x", chatUsername := none, chatTitle := none,
    chatId := some "[object Object]", date := 0, media := none,
    rawMessage := rawChatPeer }

/-- C5 (amended): tier-2 extraction precedence is channel-scoped id if
present, else user-scoped id, else the raw peer reference stringified; the
chat-scoped id is never consulted, so a peer carrying only a chat-scoped id
resolves to the stringified raw reference. -/
theorem tier2_id_precedence (st : List String) (m : RawMessage) (p : Peer)
    (now : Int) (msg : TelegramMessage) (i j c : Int)
    (hp : m.peerId = some p) (hnew : dedupKey p m.id ∉ st) :
    ((handleNew true st none none m now).2 = some msg →
      msg.chatId = some (tier2ChatId p))
    ∧ tier2ChatId (Peer.channel i) = toString i
    ∧ tier2ChatId (Peer.user j) = toString j
    ∧ tier2ChatId (Peer.chat c) = "[object Object]"
    ∧ tier2ChatId Peer.other = "[object Object]" := by
  refine ⟨?_, rfl, rfl, rfl, rfl⟩
  intro hsome
  rw [handleNew_fresh st none none m p now hp hnew] at hsome
  have hsome2 : (if (!truthyO (resolveNew none none p).1
        && !truthyO (resolveNew none none p).2.1
        && !truthyO (resolveNew none none p).2.2) = true
      then (none : Option TelegramMessage)
      else some {
        id := m.id
        text := m.text.getD ""
        chatUsername := (resolveNew none none p).1
        chatTitle := (resolveNew none none p).2.1
        chatId := (resolveNew none none p).2.2
        date := m.date.getD now
        media := m.media
        rawMessage := m }) = some msg := hsome
  have hres : resolveNew none none p = (none, none, some (tier2ChatId p)) := by
    simp [resolveNew, truthyO]
  rw [hres] at hsome2
  simp only [truthyO, tier2ChatId_isEmpty_false p, Bool.not_false, Bool.not_true,
    Bool.and_false, Bool.false_eq_true, if_false, Option.some.injEq] at hsome2
  subst hsome2
  rfl

/-- Witness for C5's amended statement at the chat-scoped peer. -/
theorem tier2_id_precedence_witness :
    (rawChatPeer.peerId = some (Peer.chat 5)
      ∧ dedupKey (Peer.chat 5) rawChatPeer.id ∉ ([] : List String))
    ∧ (((handleNew true [] none none rawChatPeer 0).2 = some msgChatPeer →
        msgChatPeer.chatId = some (tier2ChatId (Peer.chat 5)))
      ∧ tier2ChatId (Peer.channel 42) = toString (42 : Int)
      ∧ tier2ChatId (Peer.user 3) = toString (3 : Int)
      ∧ tier2ChatId (Peer.chat 5) = "[object Object]"
      ∧ tier2ChatId Peer.other = "[object Object]") :=
  ⟨⟨rfl, by decide⟩,
    tier2_id_precedence [] rawChatPeer (Peer.chat 5) 0 msgChatPeer 42 3 5 rfl
      (by decide)⟩

/-- A placeholder raw handle for forwarder-side messages. -/
def rawDummy : RawMessage :=
  { peerId := none, id := 0, text := none, date := none, media := none }

/-- A message whose username is the digit string "12345". -/
def msgNumericUsername : TelegramMessage :=
  { id := 1, text := "t", chatUsername := some "12345", chatTitle := none,
    chatId := none, date := 0, media := none, rawMessage := rawDummy }

/-- C6 counterexample: the numeric selector "12345" matches a message whose
username (not id) is "12345" — the matcher checks username and title before
the id, so a numeric selector is not id-only. -/
theorem numeric_selector_counterexample :
    matchesChannel msgNumericUsername "12345" = true
    ∧ msgNumericUsername.chatId ≠ some "12345" :=
  ⟨by decide, by decide⟩

/-- C6 (amended): the id comparison is verbatim with no normalization — when
username and title are absent, selector "12345" matches exactly the messages
whose `chatId` is the string "12345" — but a username or title equal to the
selector can also match, so the id field is not the only route. -/
theorem numeric_selector_matches (m m2 : TelegramMessage) (c : String)
    (hu : m.chatUsername = none) (ht : m.chatTitle = none)
    (hc : m.chatId = some c) (hc2 : m2.chatId = some "12345") :
    (matchesChannel m "12345" = true ↔ c = "12345")
    ∧ matchesChannel m2 "12345" = true := by
  constructor
  · simp only [matchesChannel, hu, ht, hc, Bool.false_or, Bool.and_eq_true,
      Bool.not_eq_true', beq_iff_eq]
    constructor
    · exact fun h => h.2
    · rintro rfl
      exact ⟨by decide, rfl⟩
  · simp only [matchesChannel, hc2, Bool.or_eq_true]
    exact Or.inr (by decide)

/-- A message carrying only the id "999". -/
def msgIdOnly : TelegramMessage :=
  { id := 2, text := "t", chatUsername := none, chatTitle := none,
    chatId := some "999", date := 0, media := none, rawMessage := rawDummy }

/-- A message carrying only the id "12345". -/
def msgIdMatch : TelegramMessage :=
  { id := 3, text := "t", chatUsername := none, chatTitle := none,
    chatId := some "12345", date := 0, media := none, rawMessage := rawDummy }

/-- Witness for C6's amended statement at concrete messages. -/
theorem numeric_selector_matches_witness :
    ((matchesChannel msgIdOnly "12345" = true ↔ ("999" : String) = "12345")
      ∧ matchesChannel msgIdMatch "12345" = true) :=
  numeric_selector_matches msgIdOnly msgIdMatch "999" rfl rfl rfl rfl

/-- Witness for C3 at concrete caches and keys. -/
theorem dedup_cache_bounded_witness :
    ((["1:1", "2:2"] : List String).Nodup
      ∧ (["3:3"] : List String).length ≤ MAX_CACHE_SIZE)
    ∧ ((shouldProcess ["3:3"] "4:4").2).length ≤ MAX_CACHE_SIZE :=
  ⟨⟨by decide, by decide⟩,
    (dedup_cache_bounded ["1:1", "2:2"] ["3:3"] "4:4" "9:9"
      (by decide) (by decide) (by decide) (by decide)).1⟩

/-- C7: document-kind media above the 8 MiB gate is skipped entirely and the
embed still goes out alone as JSON; a 1,000,000-byte document is downloaded
and included in a multi-part request; photo-kind media has no size gate and is
always attempted. -/
theorem media_size_gate (m9 m1 mp2 : TelegramMessage) (dl : Option Nat)
    (b : Nat) (srcName : String) (mime fn : Option String)
    (h9 : m9.media = some (Media.document true (some 9000000) mime fn))
    (h1 : m1.media = some (Media.document true (some 1000000) mime fn))
    (hph : mp2.media = some (Media.photo true)) :
    downloadMedia m9 true dl = []
    ∧ sendToWebhook m9 srcName true dl = OutRequest.json [buildEmbed m9 srcName]
    ∧ (downloadMedia m1 true (some b)).length = 1
    ∧ sendToWebhook m1 srcName true (some b)
        = OutRequest.multipart [buildEmbed m1 srcName] (downloadMedia m1 true (some b))
    ∧ downloadMedia mp2 true (some b)
        = [⟨b, "photo_" ++ toString mp2.id ++ ".jpg", "image/jpeg"⟩] := by
  have hskip : downloadMedia m9 true dl = [] := by
    simp [downloadMedia, h9]
  have hlen : (downloadMedia m1 true (some b)).length = 1 := by
    simp only [downloadMedia, h1]
    cases mime with
    | none => simp
    | some mt =>
      by_cases hmt : mt.isEmpty
      · simp [hmt]
      · simp [hmt]
  refine ⟨hskip, ?_, hlen, ?_, ?_⟩
  · simp [sendToWebhook, hskip]
  · simp [sendToWebhook, hlen]
  · simp [downloadMedia, hph]

/-- A routed message with a 9,000,000-byte document attachment. -/
def msgDocBig : TelegramMessage :=
  { id := 4, text := "big", chatUsername := none, chatTitle := none,
    chatId := some "42", date := 0,
    media := some (Media.document true (some 9000000) (some "video/mp4") none),
    rawMessage := rawDummy }

/-- A routed message with a 1,000,000-byte document attachment. -/
def msgDocSmall : TelegramMessage :=
  { id := 5, text := "small", chatUsername := none, chatTitle := none,
    chatId := some "42", date := 0,
    media := some (Media.document true (some 1000000) (some "video/mp4") none),
    rawMessage := rawDummy }

/-- A routed message with a photo attachment. -/
def msgPhoto : TelegramMessage :=
  { id := 6, text := "pic", chatUsername := none, chatTitle := none,
    chatId := some "42", date := 0, media := some (Media.photo true),
    rawMessage := rawDummy }

/-- Witness for C7 at concrete attachments. -/
theorem media_size_gate_witness :
    (msgDocBig.media = some (Media.document true (some 9000000) (some "video/mp4") none)
      ∧ msgDocSmall.media = some (Media.document true (some 1000000) (some "video/mp4") none)
      ∧ msgPhoto.media = some (Media.photo true))
    ∧ (downloadMedia msgDocBig true (some 0) = []
      ∧ sendToWebhook msgDocBig "src" true (some 0)
          = OutRequest.json [buildEmbed msgDocBig "src"]
      ∧ (downloadMedia msgDocSmall true (some 0)).length = 1
      ∧ sendToWebhook msgDocSmall "src" true (some 0)
          = OutRequest.multipart [buildEmbed msgDocSmall "src"]
              (downloadMedia msgDocSmall true (some 0))
      ∧ downloadMedia msgPhoto true (some 0)
          = [⟨0, "photo_" ++ toString msgPhoto.id ++ ".jpg", "image/jpeg"⟩]) :=
  ⟨⟨rfl, rfl, rfl⟩,
    media_size_gate msgDocBig msgDocSmall msgPhoto (some 0) 0 "src"
      (some "video/mp4") none rfl rfl rfl⟩

/-- C8: text longer than 4000 characters is delivered as a description of
length at most 4000 ending in the `...` truncation marker; text of length at
most 4000 is delivered unchanged; the embed carries the (possibly truncated)
text exactly when the text is non-empty. -/
theorem truncation_bound (t : String) (m : TelegramMessage) (srcName : String) :
    (4000 < t.length →
      (truncateText t).length ≤ 4000
      ∧ "...".data <:+ (truncateText t).data)
    ∧ (t.length ≤ 4000 → truncateText t = t)
    ∧ (m.text.isEmpty = false →
        (buildEmbed m srcName).description = some (truncateText m.text))
    ∧ (m.text.isEmpty = true → (buildEmbed m srcName).description = none) := by
  refine ⟨?_, ?_, ?_, ?_⟩
  · intro h
    have heq : truncateText t = String.mk (t.data.take 3997 ++ "...".data) := by
      simp only [truncateText, if_pos h]
      rfl
    constructor
    · rw [heq]
      show (t.data.take 3997 ++ "...".data).length ≤ 4000
      rw [List.length_append, List.length_take]
      have h3 : ("...".data).length = 3 := rfl
      rw [h3]
      have := Nat.min_le_left 3997 t.data.length
      omega
    · rw [heq]
      show "...".data <:+ (t.data.take 3997 ++ "...".data)
      exact List.suffix_append _ _
  · intro h
    rw [truncateText, if_neg (by omega)]
  · intro h
    simp [buildEmbed, h]
  · intro h
    simp [buildEmbed, h]

/-- A 4500-character text. -/
def bigText : String := String.mk (List.replicate 4500 'a')

/-- Witness for C8: the 4500-character text of the spec's example. -/
theorem truncation_bound_witness :
    4000 < bigText.length
    ∧ ((truncateText bigText).length ≤ 4000
      ∧ "...".data <:+ (truncateText bigText).data) :=
  ⟨by show 4000 < (List.replicate 4500 'a').length; rw [List.length_replicate]; omega,
    (truncation_bound bigText msgIdOnly "s").1
      (by show 4000 < (List.replicate 4500 'a').length; rw [List.length_replicate]; omega)⟩

/-- The dedup state reached by the raw/poll pipeline is the same whether the
delivery succeeds or fails. -/
theorem pipelineRaw_fst (mappings : List ChannelMapping) (st : List String)
    (ent : Option Entity) (m : RawMessage) (isP : Bool) (now : Int)
    (cp : Bool) (dl : Option Nat) (postOk : Bool) :
    (pipelineRaw mappings st ent m isP now cp dl postOk).1
      = (handleRaw true st ent m isP now).1 := by
  unfold pipelineRaw
  rcases h : handleRaw true st ent m isP now with ⟨st2, msgq⟩
  cases msgq <;> rfl

/-- C9: `forward` never throws past its boundary — a delivery failure is
caught and yields a normal `failureLogged` return, is not retried, and the
dedup state is unaffected: the pipeline's cache is identical for a failed and
a successful delivery, and the dispatched message's key stays recorded. -/
theorem forward_failure_contained (mappings : List ChannelMapping)
    (st : List String) (ent : Option Entity) (m : RawMessage) (isP : Bool)
    (now : Int) (cp : Bool) (dl : Option Nat) (msg : TelegramMessage)
    (p : Peer) (url : String) :
    (pipelineRaw mappings st ent m isP now cp dl false).1
        = (pipelineRaw mappings st ent m isP now cp dl true).1
    ∧ ((handleRaw true st ent m isP now).2 = some msg → m.peerId = some p →
        dedupKey p m.id ∈ (pipelineRaw mappings st ent m isP now cp dl false).1)
    ∧ ((handleRaw true st ent m isP now).2 = some msg →
        findWebhookUrl mappings msg = some url →
        (pipelineRaw mappings st ent m isP now cp dl false).2
          = some (ForwardOutcome.failureLogged url)) := by
  refine ⟨?_, ?_, ?_⟩
  · rw [pipelineRaw_fst, pipelineRaw_fst]
  · intro hsome hp
    rw [pipelineRaw_fst]
    by_cases hseen : dedupKey p m.id ∈ st
    · rw [handleRaw_seen st ent m p isP now hp hseen] at hsome
      simp at hsome
    · rw [handleRaw_fresh st ent m p isP now hp hseen]
      exact mem_dedupInsert st _ hseen
  · intro hsome hurl
    have hpair : handleRaw true st ent m isP now
        = ((handleRaw true st ent m isP now).1, some msg) := by
      rw [← hsome]
    have hstep : pipelineRaw mappings st ent m isP now cp dl false
        = ((handleRaw true st ent m isP now).1,
           some (forward mappings msg cp dl false)) := by
      unfold pipelineRaw
      rw [hpair]
    have hfwd : forward mappings msg cp dl false
        = ForwardOutcome.failureLogged url := by
      unfold forward
      rw [hurl]
      rfl
    rw [hstep, hfwd]

/-- The single configured route mapping of the delivery-failure witness. -/
def mapW : List ChannelMapping := [{ telegramChannel := "42", webhookUrl := "http" }]

/-- The message the raw path dispatches for `rawHi` with a failed entity
lookup. -/
def msgRawHi : TelegramMessage :=
  { id := 7, text := "hi", chatUsername := none, chatTitle := none,
    chatId := some "42", date := 100, media := none, rawMessage := rawHi }

/-- Witness for C9 at a concrete routed message whose delivery fails. -/
theorem forward_failure_contained_witness :
    ((handleRaw true [] none rawHi false 100).2 = some msgRawHi
      ∧ findWebhookUrl mapW msgRawHi = some "http")
    ∧ ((pipelineRaw mapW [] none rawHi false 100 true none false).1
          = (pipelineRaw mapW [] none rawHi false 100 true none true).1
      ∧ dedupKey (Peer.channel 42) rawHi.id
          ∈ (pipelineRaw mapW [] none rawHi false 100 true none false).1
      ∧ (pipelineRaw mapW [] none rawHi false 100 true none false).2
          = some (ForwardOutcome.failureLogged "http")) :=
  ⟨⟨by decide, by decide⟩,
    ⟨(forward_failure_contained mapW [] none rawHi false 100 true none msgRawHi
        (Peer.channel 42) "http").1,
      (forward_failure_contained mapW [] none rawHi false 100 true none msgRawHi
        (Peer.channel 42) "http").2.1 (by decide) rfl,
      (forward_failure_contained mapW [] none rawHi false 100 true none msgRawHi
        (Peer.channel 42) "http").2.2 (by decide) (by decide)⟩⟩
